import Mathlib

/-!
Verification model of `uk_streamer_downloader.py` (UKTVDownloader).

The Python program is shallowly embedded: XML elements become an inductive
tree, the network/browser/tool collaborators become explicit inputs
(`PageSession`, `World`), and all observable side effects of a run are
recorded in an explicit event list.  Every definition is translated from
the source file; console logging (print statements) is not modelled, as
the design document places it out of scope.
-/

set_option autoImplicit false

/-! ## String utilities (Python `in`, `strip`, `lower`, slicing helpers) -/

/-- Python `sub in s` substring test, on character lists. -/
def subOccurs (sub : List Char) : List Char → Bool
  | [] => sub.isEmpty
  | c :: t => sub.isPrefixOf (c :: t) || subOccurs sub t

/-- Python `sub in s` substring test on strings. -/
def strContains (s sub : String) : Bool := subOccurs sub.data s.data

/-- Python truthiness of an optional string: `None` and `""` are falsy. -/
def optTruthy : Option String → Bool
  | none => false
  | some s => s != ""

/-- Python `s.strip()`: drop whitespace from both ends. -/
def pyStrip (s : String) : String :=
  String.mk (((s.data.dropWhile Char.isWhitespace).reverse.dropWhile
    Char.isWhitespace).reverse)

/-- Python `s.lower()` (ASCII case folding, which covers every string the
program lowers). -/
def pyLower (s : String) : String := String.mk (s.data.map Char.toLower)

/-- Python `s.startswith(pre)`. -/
def pyStartsWith (s pre : String) : Bool := pre.data.isPrefixOf s.data

/-- The character class `[0-9a-zA-Z]` used by the ITV / Channel 5 id regex. -/
def isAsciiAlnum (c : Char) : Bool :=
  c.isDigit || (c ≥ 'a' && c ≤ 'z') || (c ≥ 'A' && c ≤ 'Z')

/-- True when the remaining input satisfies the regex tail `(?:/|$)`:
either the input is exhausted or the next character is a slash. -/
def slashOrEnd : List Char → Bool
  | [] => true
  | c :: _ => c == '/'

/-- One attempt of `re.search(r'/(\d+)(?:-\d+)?(?:/|$)', _)` anchored at the
current position (Channel 4 program-id pattern, source line 197).  The
greedy digit runs cannot be shortened by backtracking (a shortened run
would be followed by a digit, which matches neither `-`, `/` nor end of
input), so the match is deterministic. -/
def matchC4At : List Char → Option String
  | '/' :: rest =>
    let d := rest.takeWhile Char.isDigit
    let r1 := rest.dropWhile Char.isDigit
    if d.isEmpty then none
    else
      match r1 with
      | '-' :: r2 =>
        let d2 := r2.takeWhile Char.isDigit
        let r3 := r2.dropWhile Char.isDigit
        if d2.isEmpty then none
        else if slashOrEnd r3 then some (String.mk d) else none
      | _ => if slashOrEnd r1 then some (String.mk d) else none
  | _ => none

/-- Leftmost-match scan for the Channel 4 program-id pattern. -/
def searchC4Aux : List Char → Option String
  | [] => none
  | c :: t =>
    match matchC4At (c :: t) with
    | some g => some g
    | none => searchC4Aux t

/-- Model of `re.search(r'/(\d+)(?:-\d+)?(?:/|$)', s)` returning group 1
(source line 197). -/
def searchC4 (s : String) : Option String := searchC4Aux s.data

/-- One attempt of `re.search(r'/([0-9a-zA-Z]+)(?:/|$)', _)` anchored at the
current position (ITV / Channel 5 program-id pattern, source lines 271
and 349). -/
def matchItvAt : List Char → Option String
  | '/' :: rest =>
    let a := rest.takeWhile isAsciiAlnum
    let r := rest.dropWhile isAsciiAlnum
    if a.isEmpty then none
    else if slashOrEnd r then some (String.mk a) else none
  | _ => none

/-- Leftmost-match scan for the ITV / Channel 5 program-id pattern. -/
def searchItvAux : List Char → Option String
  | [] => none
  | c :: t =>
    match matchItvAt (c :: t) with
    | some g => some g
    | none => searchItvAux t

/-- Model of `re.search(r'/([0-9a-zA-Z]+)(?:/|$)', s)` returning group 1. -/
def searchITV (s : String) : Option String := searchItvAux s.data

/-- Splits a character list at the first occurrence of `"://"`
(supporting the model of `urlparse` for absolute http(s) URLs). -/
def schemeSplit : List Char → Option (List Char × List Char)
  | [] => none
  | c :: t =>
    if (String.toList "://").isPrefixOf (c :: t) then some ([], (c :: t).drop 3)
    else (schemeSplit t).map (fun p => (c :: p.1, p.2))

/-- Model of `urlparse(u).scheme` for an absolute http(s) URL. -/
def urlScheme (u : String) : String :=
  match schemeSplit u.data with
  | some p => String.mk p.1
  | none => ""

/-- Model of `urlparse(u).netloc` for an absolute http(s) URL. -/
def urlNetloc (u : String) : String :=
  match schemeSplit u.data with
  | some p => String.mk (p.2.takeWhile (fun c => c != '/' && c != '?' && c != '#'))
  | none => ""

/-! ## XML element trees and the manifest protection parser

`xml.etree.ElementTree` stores a namespaced tag as `"{ns}local"`; the model
keeps that textual convention.  `Element.text` is `None` for an element
with no text node, hence `Option String`. -/

/-- An XML element as produced by `ET.fromstring`: tag, attributes, text,
children. -/
inductive XmlElem : Type where
  | mk : String → List (String × String) → Option String → List XmlElem → XmlElem
deriving Repr

def XmlElem.tag : XmlElem → String
  | .mk t _ _ _ => t

def XmlElem.attrs : XmlElem → List (String × String)
  | .mk _ a _ _ => a

def XmlElem.text : XmlElem → Option String
  | .mk _ _ tx _ => tx

def XmlElem.children : XmlElem → List XmlElem
  | .mk _ _ _ cs => cs

mutual

/-- All proper descendants of an element in document order, as iterated by
`elem.findall(".//...")`. -/
def descendants : XmlElem → List XmlElem
  | .mk _ _ _ cs => descList cs

/-- Descendants of a forest in document order. -/
def descList : List XmlElem → List XmlElem
  | [] => []
  | c :: rest => c :: (descendants c ++ descList rest)

end

/-- The namespaced `ContentProtection` tag searched at source line 163. -/
def nsCPtag : String := "\x7burn:mpeg:dash:schema:mpd:2011\x7dContentProtection"

/-- The common-encryption (Widevine) system UUID from source line 163. -/
def widevineUuid : String := "urn:uuid:edef8ba9-79d6-4ace-a3c8-27dcd51d21ed"

/-- The namespaced `pssh` payload tag searched at source line 164. -/
def cencPsshTag : String := "\x7burn:mpeg:cenc:2013\x7dpssh"

/-- Attribute lookup, `elem.get(k)`. -/
def getAttr (e : XmlElem) (k : String) : Option String :=
  match e.attrs.find? (fun a => a.1 == k) with
  | some a => some a.2
  | none => none

/-- The predicate of the XPath
`.//{urn:mpeg:dash:schema:mpd:2011}ContentProtection[@schemeIdUri='urn:uuid:edef8ba9-...']`. -/
def isWidevineCP (e : XmlElem) : Bool :=
  e.tag == nsCPtag && getAttr e "schemeIdUri" == some widevineUuid

/-- The nested iteration of source lines 163-165: every namespaced `pssh`
descendant of every matching `ContentProtection` descendant, in iteration
order. -/
def tier1Payloads (root : XmlElem) : List XmlElem :=
  ((descendants root).filter isWidevineCP).flatMap
    (fun cp => (descendants cp).filter (fun q => q.tag == cencPsshTag))

/-- The assignment loop `pssh = pssh_elem.text.strip()` over the tier-1
payloads.  A payload whose `text` is `None` raises (`.strip()` on `None`);
the `error` branch carries the value the `pssh` variable holds when the
exception is thrown, because the enclosing `try` in the extractor catches
it and execution continues with that value. -/
def runTier1 : List XmlElem → Option String → Except (Option String) (Option String)
  | [], acc => .ok acc
  | p :: rest, acc =>
    match p.text with
    | none => .error acc
    | some t => runTier1 rest (some (pyStrip t))

/-- The permissive second-tier predicate of source line 170:
`"pssh" in elem.tag.lower() and elem.text`. -/
def psshFallbackHit (e : XmlElem) : Bool :=
  strContains (pyLower e.tag) "pssh" && optTruthy e.text

/-- The first element found by the fallback scan over `root.findall(".//*")`
(source lines 169-172). -/
def fallbackElem (root : XmlElem) : Option XmlElem :=
  (descendants root).find? psshFallbackHit

/-- The manifest protection parser: the PSSH-extraction block shared by the
three extractors (source lines 161-172).  Tier 1 assigns the stripped text
of each namespaced payload in turn; if the resulting value is falsy
(`None` or the empty string) the fallback scan of line 169 runs, keeping
the prior value when it finds nothing.  When tier 1 raises mid-loop the
fallback is skipped and the partially assigned value stands. -/
def extractPssh (root : XmlElem) : Option String :=
  match runTier1 (tier1Payloads root) none with
  | .error a => a
  | .ok acc =>
    if optTruthy acc then acc
    else
      match fallbackElem root with
      | some e => e.text.map pyStrip
      | none => acc

/-! ## Browser session inputs, extracted data, and extractor results -/

/-- The inputs an extractor reads from the external browser session while
analysing one page: whether a `video` element appeared within the 30 s
wait, the `name` fields of the recorded performance entries, the fetched
and parsed manifest (`none` models the HTTP `get` or `ET.fromstring`
raising), and the `src` attribute of the first `track[kind=subtitles]`
element of the rendered page (`none` models "no such element" or a page
parse error; `some none` models a track element without a `src`). -/
structure PageSession where
  videoAppeared : Bool
  networkEntries : List String
  manifest : Option XmlElem
  pageTrackSrc : Option (Option String)
deriving Repr

/-- The dictionary each extractor returns on success (source lines 201-206):
every key is always present, possibly with value `None`. -/
structure StreamData where
  mpd_url : Option String
  pssh : Option String
  subtitle_url : Option String
  program_id : Option String
deriving Repr, DecidableEq

/-- The value an extractor hands back to `process_url`: `None`
(ITV / Channel 5 failure paths), the tuple `(None, None, None)`
(Channel 4 failure paths, lines 133 and 156), or a data dictionary. -/
inductive ExtractRet : Type where
  | noneVal : ExtractRet
  | tripleNones : ExtractRet
  | dict : StreamData → ExtractRet
deriving Repr, DecidableEq

/-- The network-entry classification loop of `extract_channel4_data`
(source lines 147-152).  The loop variable deliberately mirrors the
source: each iteration rebinds `url`, so after the loop the variable
holds the last entry, shadowing the page URL parameter. -/
def classifyC4 (urlVar : String) (mpd sub : Option String) :
    List String → String × Option String × Option String
  | [] => (urlVar, mpd, sub)
  | e :: rest =>
    if strContains e ".mpd" then classifyC4 e (some e) sub rest
    else if strContains e ".vtt" || strContains e "/subs." then
      classifyC4 e mpd (some e) rest
    else classifyC4 e mpd sub rest

/-- The network-entry classification loop of `extract_itv_data`
(source lines 240-245). -/
def classifyItv (urlVar : String) (mpd sub : Option String) :
    List String → String × Option String × Option String
  | [] => (urlVar, mpd, sub)
  | e :: rest =>
    if strContains e ".mpd" || strContains e ".ism/" then
      classifyItv e (some e) sub rest
    else if strContains e ".vtt" || strContains e "/subs." || strContains e "subtitles" then
      classifyItv e mpd (some e) rest
    else classifyItv e mpd sub rest

/-- The network-entry classification loop of `extract_channel5_data`
(source lines 318-323). -/
def classifyC5 (urlVar : String) (mpd sub : Option String) :
    List String → String × Option String × Option String
  | [] => (urlVar, mpd, sub)
  | e :: rest =>
    if strContains e ".mpd" then classifyC5 e (some e) sub rest
    else if strContains e ".vtt" || strContains e "subtitles" then
      classifyC5 e mpd (some e) rest
    else classifyC5 e mpd sub rest

/-- The page-source subtitle fallback of `extract_channel4_data`
(source lines 177-189): runs only when the value found so far is falsy;
keeps the prior value when no track element exists; resolves a relative
`src` against the scheme and host of the (shadowed) `url` variable. -/
def subtitleFallbackC4 (urlVar : String) (prior : Option String)
    (track : Option (Option String)) : Option String :=
  if optTruthy prior then prior
  else
    match track with
    | none => prior
    | some srcAttr =>
      match srcAttr with
      | none => none
      | some src =>
        if pyStartsWith src "http" then some src
        else some (urlScheme urlVar ++ "://" ++ urlNetloc urlVar ++ src)

/-- Model of `extract_channel4_data` (source lines 115-206), as a function of the
page URL and the session observations.  Failure paths return the tuple
`(None, None, None)`.  The PSSH step applies `extractPssh` to the parsed
manifest; a fetch/parse exception (`manifest = none`) leaves `pssh` as
`None`.  Both the subtitle base URL and the program id are computed from
the loop-shadowed `url` variable, exactly as in the source. -/
def extract_channel4_data (url : String) (s : PageSession) : ExtractRet :=
  if !s.videoAppeared then .tripleNones
  else
    match classifyC4 url none none s.networkEntries with
    | (urlVar, mpdOpt, subOpt) =>
      match mpdOpt with
      | none => .tripleNones
      | some m =>
        if m = "" then .tripleNones
        else
          let pssh := match s.manifest with
            | none => none
            | some x => extractPssh x
          let subtitle := subtitleFallbackC4 urlVar subOpt s.pageTrackSrc
          let programId := searchC4 urlVar
          .dict { mpd_url := some m, pssh := pssh, subtitle_url := subtitle,
                  program_id := programId }

/-- Model of `extract_itv_data` (source lines 208-284).  Failure paths return
`None`; there is no page-source subtitle fallback; the program id comes
from the loop-shadowed `url` variable via the alphanumeric pattern. -/
def extract_itv_data (url : String) (s : PageSession) : ExtractRet :=
  if !s.videoAppeared then .noneVal
  else
    match classifyItv url none none s.networkEntries with
    | (urlVar, mpdOpt, subOpt) =>
      match mpdOpt with
      | none => .noneVal
      | some m =>
        if m = "" then .noneVal
        else
          let pssh := match s.manifest with
            | none => none
            | some x => extractPssh x
          let programId := searchITV urlVar
          .dict { mpd_url := some m, pssh := pssh, subtitle_url := subOpt,
                  program_id := programId }

/-- Model of `extract_channel5_data` (source lines 286-362). -/
def extract_channel5_data (url : String) (s : PageSession) : ExtractRet :=
  if !s.videoAppeared then .noneVal
  else
    match classifyC5 url none none s.networkEntries with
    | (urlVar, mpdOpt, subOpt) =>
      match mpdOpt with
      | none => .noneVal
      | some m =>
        if m = "" then .noneVal
        else
          let pssh := match s.manifest with
            | none => none
            | some x => extractPssh x
          let programId := searchITV urlVar
          .dict { mpd_url := some m, pssh := pssh, subtitle_url := subOpt,
                  program_id := programId }

/-! ## Providers, events, and the key resolver -/

/-- The three supported services of `process_url` (source lines 550-558). -/
inductive Provider : Type where
  | channel4 : Provider
  | itv : Provider
  | channel5 : Provider
deriving Repr, DecidableEq

/-- The `service_name` string as assigned in `process_url`. -/
def serviceName : Provider → String
  | .channel4 => "Channel 4"
  | .itv => "ITV"
  | .channel5 => "Channel 5"

/-- Model of `service_name.replace(' ', '')` (source line 581). -/
def providerTag (p : Provider) : String :=
  String.mk ((serviceName p).data.filter (fun c => c != ' '))

/-- The errors a modelled run can raise out of `process_url` instead of
returning: `attributeError` is Python's `AttributeError` from calling
`.get` on the tuple `(None, None, None)` at source line 568. -/
inductive PyErr : Type where
  | attributeError : PyErr
deriving Repr, DecidableEq

/-- The observable side effects of one run, in order of occurrence. -/
inductive Event : Type where
  | extractorInvoked : Provider → Event
  | navigated : String → Event
  | playAttempted : Event
  | prompted : Event
  | cacheWritten : Event
  | cacheSaved : Event
  | subtitleFetched : Event
  | toolInvoked : Event
  | errorSurfaced : String → Event
  | muxInvoked : Event
  | renamed : String → String → Event
deriving Repr, DecidableEq

/-- Cache lookup `self.widevine_data[k]` on the insertion-ordered cache. -/
def lookupKV (c : List (String × String)) (k : String) : Option String :=
  match c.find? (fun e => e.1 == k) with
  | some e => some e.2
  | none => none

/-- Cache write `self.widevine_data[k] = v`: overwrite in place, append when new. -/
def insertKV (c : List (String × String)) (k v : String) : List (String × String) :=
  if (c.find? (fun e => e.1 == k)).isSome then
    c.map (fun e => if e.1 == k then (k, v) else e)
  else c ++ [(k, v)]

/-- Model of `get_drm_key` (source lines 364-432), returning the resolved key, the
updated cache, and the events performed.  A missing PSSH returns `None`
immediately.  A cache hit returns the cached value before any browser
step.  On a miss the session navigates to the page URL, best-effort
clicks a play control, and prompts; the answer is stripped, and when it
contains `:` the *stripped but not lower-cased* `key_input` is written to
the cache, saved to disk, and returned (the lower-cased `kid`/`key`
locals of lines 424-425 are computed and then discarded by the source).
The KID hint decoded from PSSH bytes 32-48 only feeds a print and is not
modelled. -/
def get_drm_key (cache : List (String × String)) (pssh : Option String)
    (url : String) (answer : String) :
    Option String × List (String × String) × List Event :=
  match pssh with
  | none => (none, cache, [])
  | some p =>
    match lookupKV cache p with
    | some k => (some k, cache, [])
    | none =>
      let keyInput := pyStrip answer
      if keyInput.data.contains ':' then
        (some keyInput, insertKV cache p keyInput,
         [.navigated url, .playAttempted, .prompted, .cacheWritten, .cacheSaved])
      else
        (none, cache, [.navigated url, .playAttempted, .prompted])

/-! ## Download, decrypt, mux, and the orchestrator -/

/-- The `DOWNLOAD_DIR` constant (source line 42; `expanduser` left symbolic). -/
def DOWNLOAD_DIR : String := "~/Downloads/UKStreamDownloads"

/-- The `TEMP_DIR` constant (source line 43). -/
def TEMP_DIR : String := DOWNLOAD_DIR ++ "/temp"

/-- The external-world inputs of one `process_url` run: the browser
session observations, the cache loaded at startup, the operator's answer
to the key prompt, the timestamp string, whether the subtitle HTTP fetch
succeeds, the decrypt tool's exit code and captured stderr, which
container file the tool left behind, and whether the ffmpeg mux
succeeds. -/
structure World where
  session : PageSession
  cache : List (String × String)
  promptAnswer : String
  timestamp : String
  subtitleFetchOk : Bool
  toolExit : Int
  toolStderr : String
  mkvProduced : Bool
  mp4Produced : Bool
  muxOk : Bool
deriving Repr

/-- Model of `download_subtitle` (source lines 434-447): `None` for a falsy URL,
the output path when the fetch-and-write succeeds, `None` on exception. -/
def download_subtitle (su outPath : String) (w : World) :
    Option String × List Event :=
  if su = "" then (none, [])
  else if w.subtitleFetchOk then (some outPath, [Event.subtitleFetched])
  else (none, [])

/-- The subtitle branch of `process_url` (source lines 584-587): only runs
when the extracted subtitle URL is truthy. -/
def subtitleStep (su? : Option String) (outputName : String) (w : World) :
    Option String × List Event :=
  match su? with
  | some su =>
    if su = "" then (none, [])
    else download_subtitle su (TEMP_DIR ++ "/" ++ outputName ++ ".vtt") w
  | none => (none, [])

/-- Model of `download_and_decrypt` (source lines 449-513).  The tool is invoked
with the manifest URL and key; on exit code 0 the expected output is
`{output_dir}/{name}.mkv`, falling back to `.mp4` when the `.mkv` is
absent (lines 486-489).  If the chosen file exists, subtitles (when
downloaded) are muxed in place, then the file is renamed — whatever its
container — to `{DOWNLOAD_DIR}/{name}_FINAL.mkv` and that path is
returned.  A nonzero exit reads and surfaces stderr and returns `None`
with no mux and no rename.  A missing output file also returns `None`. -/
def download_and_decrypt (mpdUrl drmKey outputName : String)
    (subPath : Option String) (w : World) : Option String × List Event :=
  let outputDir := DOWNLOAD_DIR ++ "/" ++ outputName
  if w.toolExit = 0 then
    let expected :=
      if w.mkvProduced then outputDir ++ "/" ++ outputName ++ ".mkv"
      else outputDir ++ "/" ++ outputName ++ ".mp4"
    if w.mkvProduced || w.mp4Produced then
      let evMux := match subPath with
        | some _ => [Event.muxInvoked]
        | none => []
      let final := DOWNLOAD_DIR ++ "/" ++ outputName ++ "_FINAL.mkv"
      (some final, Event.toolInvoked :: (evMux ++ [Event.renamed expected final]))
    else (none, [Event.toolInvoked])
  else (none, [Event.toolInvoked, Event.errorSurfaced w.toolStderr])

/-- The outcome of one `process_url` call: the returned value (or the
escaping exception), the event trace, the cache afterwards, the generated
output base name (when the run got that far), and the final artifact
path (when the run succeeded). -/
structure RunOutcome where
  result : Except PyErr Bool
  events : List Event
  cache : List (String × String)
  outputName : Option String
  finalPath : Option String
deriving Repr

/-- The service-detection `if/elif` chain of `process_url`
(source lines 550-558): substring tests against the whole URL string,
first match wins. -/
def detectProvider (url : String) : Option Provider :=
  if strContains url "channel4.com" || strContains url "all4.com" then some .channel4
  else if strContains url "itv.com" || strContains url "itvx.com" then some .itv
  else if strContains url "channel5.com" || strContains url "my5.tv" then some .channel5
  else none

/-- Dispatch to the matching extractor. -/
def runExtractor (p : Provider) (url : String) (s : PageSession) : ExtractRet :=
  match p with
  | .channel4 => extract_channel4_data url s
  | .itv => extract_itv_data url s
  | .channel5 => extract_channel5_data url s

/-- A run that stops with `return False` before producing anything. -/
def failedRun (w : World) : RunOutcome :=
  { result := .ok false, events := [], cache := w.cache,
    outputName := none, finalPath := none }

/-- The tail of `process_url` after a truthy `mpd_url` was found
(source lines 572-603): resolve the key, build the output name
(`data.get("program_id", "program")` returns the stored value, which may
be `None` and then renders as the string `"None"` in the f-string,
because the key is always present in the dictionary), download the
subtitle, run the tool, and report. -/
def keyStep (p : Provider) (url : String) (w : World) (d : StreamData)
    (m : String) : RunOutcome :=
  match get_drm_key w.cache d.pssh url w.promptAnswer with
  | (none, c2, ev) =>
    { result := .ok false, events := ev, cache := c2,
      outputName := none, finalPath := none }
  | (some key, c2, ev) =>
    let pid := match d.program_id with
      | some s => s
      | none => "None"
    let outputName := providerTag p ++ "-" ++ pid ++ "-" ++ w.timestamp
    match subtitleStep d.subtitle_url outputName w with
    | (subPath, evSub) =>
      match download_and_decrypt m key outputName subPath w with
      | (dl, evDl) =>
        { result := .ok dl.isSome, events := ev ++ evSub ++ evDl, cache := c2,
          outputName := some outputName, finalPath := dl }

/-- The post-extraction part of `process_url` (source lines 566-603).
`if not data or not data.get("mpd_url")` — `None` is falsy, a dictionary
is truthy, and the Channel 4 tuple `(None, None, None)` is truthy but has
no `.get`, so that branch raises `AttributeError`. -/
def jobRest (p : Provider) (url : String) (w : World) : ExtractRet → RunOutcome
  | .noneVal => failedRun w
  | .tripleNones =>
    { result := .error .attributeError, events := [], cache := w.cache,
      outputName := none, finalPath := none }
  | .dict d =>
    match d.mpd_url with
    | none => failedRun w
    | some m => if m = "" then failedRun w else keyStep p url w d m

/-- Model of `process_url` (source lines 542-603), as a function of the URL and the
external world. -/
def process_url (url : String) (w : World) : RunOutcome :=
  match detectProvider url with
  | none => failedRun w
  | some p =>
    let rest := jobRest p url w (runExtractor p url w.session)
    { rest with events := Event.extractorInvoked p :: rest.events }

/-! ## Concrete fixtures used by the theorems below -/

/-- The fixed detection substrings of `process_url` (source lines 550-558). -/
def providerMarkers : List String :=
  ["channel4.com", "all4.com", "itv.com", "itvx.com", "channel5.com", "my5.tv"]

/-- A canonically protected manifest: one namespaced `ContentProtection`
carrying one namespaced `pssh` payload with text `QUJD`. -/
def mpdWithPssh : XmlElem :=
  .mk "\x7burn:mpeg:dash:schema:mpd:2011\x7dMPD" [] none
    [ .mk nsCPtag [("schemeIdUri", widevineUuid)] none
        [ .mk cencPsshTag [] (some "QUJD") [] ] ]

/-- A namespaced payload whose text is whitespace only. -/
def c1padPayload : XmlElem := .mk cencPsshTag [] (some "   ") []

/-- A manifest whose namespaced payload strips to the empty string while an
earlier element has a pssh-like tag with text `XYZ`. -/
def c1ex : XmlElem :=
  .mk "MPD" [] none
    [ .mk "npssh" [] (some "XYZ") [],
      .mk nsCPtag [("schemeIdUri", widevineUuid)] none [c1padPayload] ]

/-- A manifest with a single namespaced payload with text `" A "`. -/
def c1rootA : XmlElem :=
  .mk "MPD" [] none
    [ .mk nsCPtag [("schemeIdUri", widevineUuid)] none
        [ .mk cencPsshTag [] (some " A ") [] ] ]

/-- A manifest with no namespaced match but one pssh-tagged element. -/
def c1rootB : XmlElem :=
  .mk "MPD" [] none [ .mk "my_pssh_box" [] (some " B ") [] ]

/-- A manifest with neither a namespaced match nor a pssh-tagged element. -/
def c1rootC : XmlElem :=
  .mk "MPD" [] none [ .mk "seg" [] (some "x") [] ]

/-- A Channel 4 session whose only network entry is a CDN manifest URL with
the digit segment `777`. -/
def c2sess : PageSession :=
  { videoAppeared := true,
    networkEntries := ["https://cdn.example.com/777/stream.mpd"],
    manifest := none, pageTrackSrc := none }

/-- An ITV session whose only network entry is a CDN manifest URL with the
alphanumeric segment `abc123`. -/
def c2sessItv : PageSession :=
  { videoAppeared := true,
    networkEntries := ["https://cdn.example.com/abc123/stream.mpd"],
    manifest := none, pageTrackSrc := none }

/-- A world in which the video-playback element never appears. -/
def c6world : World :=
  { session := { videoAppeared := false, networkEntries := [], manifest := none,
                 pageTrackSrc := none },
    cache := [], promptAnswer := "", timestamp := "20250101_000000",
    subtitleFetchOk := false, toolExit := 0, toolStderr := "",
    mkvProduced := false, mp4Produced := false, muxOk := false }

/-- A URL whose host is `example.org` but whose query string contains a
provider marker. -/
def c7url : String := "https://example.org/watch?ref=channel4.com"

/-- An arbitrary world for the detection theorems (detection inspects only
the URL). -/
def c7world : World :=
  { session := { videoAppeared := false, networkEntries := [], manifest := none,
                 pageTrackSrc := none },
    cache := [], promptAnswer := "", timestamp := "t",
    subtitleFetchOk := false, toolExit := 0, toolStderr := "",
    mkvProduced := false, mp4Produced := false, muxOk := false }

/-- A world reaching the download step whose tool exits with code 1. -/
def c8world : World :=
  { session := { videoAppeared := true,
                 networkEntries := ["https://cdn.example.com/stream.mpd"],
                 manifest := some mpdWithPssh, pageTrackSrc := none },
    cache := [("QUJD", "a:b")], promptAnswer := "", timestamp := "20250101_000000",
    subtitleFetchOk := false, toolExit := 1, toolStderr := "boom",
    mkvProduced := false, mp4Produced := false, muxOk := false }

/-- A successful run whose manifest URL has no digit path segment, so the
Channel 4 program-id pattern finds nothing. -/
def c9world : World :=
  { session := { videoAppeared := true,
                 networkEntries := ["https://cdn.example.com/a.mpd"],
                 manifest := some mpdWithPssh, pageTrackSrc := none },
    cache := [("QUJD", "11112222333344445555666677778888:99990000aaaabbbbccccddddeeeeffff")],
    promptAnswer := "", timestamp := "20250101_000000",
    subtitleFetchOk := false, toolExit := 0, toolStderr := "",
    mkvProduced := true, mp4Produced := false, muxOk := true }

/-- A world whose decrypt tool succeeds but leaves only an `.mp4`. -/
def c10world : World :=
  { session := { videoAppeared := false, networkEntries := [], manifest := none,
                 pageTrackSrc := none },
    cache := [], promptAnswer := "", timestamp := "t",
    subtitleFetchOk := false, toolExit := 0, toolStderr := "",
    mkvProduced := false, mp4Produced := true, muxOk := true }

/-! ## Helper lemmas -/

/-- Running the tier-1 assignment loop over payloads that all carry text
ends with the stripped text of the last payload, whatever the initial
value. -/
theorem runTier1_all_some (l : List XmlElem) (p : XmlElem) (t : String)
    (hall : ∀ q ∈ l, (XmlElem.text q).isSome = true) (hp : p.text = some t) :
    ∀ acc, runTier1 (l ++ [p]) acc = .ok (some (pyStrip t)) := by
  induction l with
  | nil => intro acc; simp [runTier1, hp]
  | cons q l ih =>
    intro acc
    obtain ⟨tq, htq⟩ := Option.isSome_iff_exists.mp (hall q (by simp))
    simp only [List.cons_append, runTier1, htq]
    exact ih (fun r hr => hall r (by simp [hr])) _

/-- The key resolver's event trace is one of three fixed shapes. -/
theorem gdk_trace_shape (cache : List (String × String)) (pssh : Option String)
    (url answer : String) :
    (get_drm_key cache pssh url answer).2.2 = [] ∨
    (get_drm_key cache pssh url answer).2.2 =
      [.navigated url, .playAttempted, .prompted] ∨
    (get_drm_key cache pssh url answer).2.2 =
      [.navigated url, .playAttempted, .prompted, .cacheWritten, .cacheSaved] := by
  rcases pssh with _ | p
  · left; rfl
  · rcases h : lookupKV cache p with _ | k
    · by_cases hc : ':' ∈ (pyStrip answer).data
      · right; right; simp [get_drm_key, h, hc]
      · right; left; simp [get_drm_key, h, hc]
    · left; simp [get_drm_key, h]

/-- The subtitle step's event trace is empty or a single fetch event. -/
theorem subtitle_trace_shape (su? : Option String) (n : String) (w : World) :
    (subtitleStep su? n w).2 = [] ∨ (subtitleStep su? n w).2 = [Event.subtitleFetched] := by
  rcases su? with _ | su
  · left; rfl
  · by_cases h : su = ""
    · left; simp [subtitleStep, h]
    · by_cases hw : w.subtitleFetchOk
      · right; simp [subtitleStep, download_subtitle, h, hw]
      · left; simp [subtitleStep, download_subtitle, h, hw]

/-- A nonzero tool exit yields no output file and exactly the invocation
and surfaced-stderr events. -/
theorem download_fail (mpdUrl drmKey outputName : String) (subPath : Option String)
    (w : World) (h : w.toolExit ≠ 0) :
    download_and_decrypt mpdUrl drmKey outputName subPath w =
      (none, [Event.toolInvoked, Event.errorSurfaced w.toolStderr]) := by
  simp [download_and_decrypt, h]

/-- C1 counterexample: the claim says a manifest containing a correctly
namespaced `ContentProtection` with an embedded `pssh` payload makes the
parser return that payload's text trimmed.  In `c1ex` the unique such
payload has text `"   "`, trimming to `""`; instead of returning `""`
the parser falls through to the permissive scan (because `""` is falsy)
and returns `"XYZ"` from an unrelated element. -/
theorem extractPssh_claim_cex :
    tier1Payloads c1ex = [c1padPayload] ∧ c1padPayload.text = some "   " ∧
    pyStrip "   " = "" ∧ extractPssh c1ex = some "XYZ" :=
  ⟨rfl, rfl, rfl, rfl⟩

/-- C1 (amended): if the namespaced matches exist, all their payloads carry
text, and the last payload's trimmed text is non-empty, the parser
returns that last payload's text trimmed; with no namespaced match the
parser returns the first pssh-tagged truthy-text element's text trimmed,
and absent that returns `none` (not an error). -/
theorem extractPssh_amended (root : XmlElem) :
    (∀ l p t, tier1Payloads root = l ++ [p] →
      (∀ q ∈ tier1Payloads root, (XmlElem.text q).isSome = true) →
      p.text = some t → pyStrip t ≠ "" →
      extractPssh root = some (pyStrip t))
    ∧ (∀ e t, tier1Payloads root = [] → fallbackElem root = some e →
      e.text = some t → extractPssh root = some (pyStrip t))
    ∧ (tier1Payloads root = [] → fallbackElem root = none →
      extractPssh root = none) := by
  refine ⟨?_, ?_, ?_⟩
  · intro l p t htier hall hp hne
    rw [htier] at hall
    have h1 : runTier1 (tier1Payloads root) none = .ok (some (pyStrip t)) := by
      rw [htier]
      exact runTier1_all_some l p t (fun q hq => hall q (by simp [hq])) hp none
    unfold extractPssh
    rw [h1]
    simp [optTruthy, hne]
  · intro e t htier hfb he
    unfold extractPssh
    rw [htier]
    simp [runTier1, optTruthy, hfb, he]
  · intro htier hfb
    unfold extractPssh
    rw [htier]
    simp [runTier1, optTruthy, hfb]

/-- C1 witness: the three branches of the amended statement evaluated on
concrete manifests. -/
theorem extractPssh_amended_witness :
    extractPssh c1rootA = some "A" ∧ extractPssh c1rootB = some "B" ∧
    extractPssh c1rootC = none :=
  ⟨(extractPssh_amended c1rootA).1 [] (.mk cencPsshTag [] (some " A ") []) " A "
      rfl (by decide) rfl (by decide),
   (extractPssh_amended c1rootB).2.1 (.mk "my_pssh_box" [] (some " B ") []) " B "
      rfl rfl rfl,
   (extractPssh_amended c1rootC).2.2 rfl rfl⟩

/-- C2 evaluated at a failing input: the page URL's first digit segment is
`12345`, but because the extractor's network loop rebinds the `url`
variable, the pattern is applied to the last recorded network entry and
yields `777` (Channel 4) and `abc123` (ITV) instead. -/
theorem program_id_from_network_url_bug :
    extract_channel4_data "https://www.channel4.com/programmes/12345" c2sess =
      .dict { mpd_url := some "https://cdn.example.com/777/stream.mpd",
              pssh := none, subtitle_url := none, program_id := some "777" }
    ∧ searchC4 "https://www.channel4.com/programmes/12345" = some "12345"
    ∧ extract_itv_data "https://www.itv.com/watch/show/2a1b" c2sessItv =
      .dict { mpd_url := some "https://cdn.example.com/abc123/stream.mpd",
              pssh := none, subtitle_url := none, program_id := some "abc123" } :=
  ⟨rfl, rfl, rfl⟩

/-- C3 evaluated at a failing input: the answer `"ABCD:ef12 "` is stripped
but not lower-cased before being cached and returned; the normalized form
the claim requires would be `"abcd:ef12"`. -/
theorem key_not_lowercased_bug :
    get_drm_key [] (some "QUJD") "https://www.channel4.com/p" "ABCD:ef12 " =
      (some "ABCD:ef12", [("QUJD", "ABCD:ef12")],
       [.navigated "https://www.channel4.com/p", .playAttempted, .prompted,
        .cacheWritten, .cacheSaved])
    ∧ pyLower (pyStrip "ABCD:ef12 ") = "abcd:ef12"
    ∧ ("ABCD:ef12" : String) ≠ "abcd:ef12" :=
  ⟨rfl, rfl, by decide⟩

/-- C4: a cached protection header makes the resolver return the cached
value unchanged with no events at all — no navigation, no play-control
activation, no prompt, and no cache write or save — and the cache is
untouched. -/
theorem get_drm_key_cache_hit (cache : List (String × String))
    (p k url answer : String) (h : lookupKV cache p = some k) :
    get_drm_key cache (some p) url answer = (some k, cache, []) := by
  simp [get_drm_key, h]

/-- C4 witness. -/
theorem get_drm_key_cache_hit_witness :
    get_drm_key [("QUJD", "a:b")] (some "QUJD") "https://www.itv.com/x" "ignored" =
      (some "a:b", [("QUJD", "a:b")], []) :=
  get_drm_key_cache_hit _ "QUJD" "a:b" _ _ rfl

/-- C5: on a cache miss, an answer without the `:` separator makes
resolution fail (`None`, the code's `InvalidKeyFormat` outcome) with the
in-memory cache returned exactly as it was and no cache-write or
cache-save event, so the persisted file is untouched as well. -/
theorem get_drm_key_invalid_format (cache : List (String × String))
    (p url answer : String) (hmiss : lookupKV cache p = none)
    (hsep : ':' ∉ (pyStrip answer).data) :
    get_drm_key cache (some p) url answer =
      (none, cache, [.navigated url, .playAttempted, .prompted])
    ∧ Event.cacheWritten ∉ (get_drm_key cache (some p) url answer).2.2
    ∧ Event.cacheSaved ∉ (get_drm_key cache (some p) url answer).2.2 := by
  have h1 : get_drm_key cache (some p) url answer =
      (none, cache, [.navigated url, .playAttempted, .prompted]) := by
    simp [get_drm_key, hmiss, hsep]
  exact ⟨h1, by rw [h1]; simp, by rw [h1]; simp⟩

/-- C5 witness. -/
theorem get_drm_key_invalid_format_witness :
    get_drm_key [] (some "QUJD") "https://www.itv.com/x" "deadbeef" =
      (none, [], [.navigated "https://www.itv.com/x", .playAttempted, .prompted]) :=
  (get_drm_key_invalid_format [] "QUJD" "https://www.itv.com/x" "deadbeef" rfl
    (by decide)).1

/-- C6 evaluated at a failing input: with no video element appearing, the
ITV and Channel 5 jobs end in the typed failure (`return False`), but the
Channel 4 extractor returns the tuple `(None, None, None)`, which is
truthy, so `process_url` calls `.get` on a tuple and an `AttributeError`
escapes to the top level instead of a typed `Failed` outcome. -/
theorem channel4_timeout_attribute_error :
    (process_url "https://www.channel4.com/programmes/1" c6world).result =
      .error .attributeError
    ∧ (process_url "https://www.itv.com/watch/1" c6world).result = .ok false
    ∧ (process_url "https://www.channel5.com/show/1" c6world).result = .ok false :=
  ⟨rfl, rfl, rfl⟩

/-- C7 counterexample: `c7url` has host `example.org`, which matches no
provider marker, yet `process_url` invokes the Channel 4 extractor
because detection tests the markers against the whole URL string and the
query string contains `channel4.com`. -/
theorem detection_not_by_host_cex :
    urlNetloc c7url = "example.org"
    ∧ (∀ m ∈ providerMarkers, strContains "example.org" m = false)
    ∧ Event.extractorInvoked .channel4 ∈ (process_url c7url c7world).events :=
  ⟨rfl, by decide, by decide⟩

/-- C7 (amended): detection is by substring containment over the entire
URL string, first match winning in the order Channel 4, ITV, Channel 5.
A URL containing no marker anywhere returns the typed failure without
invoking any extractor; a URL containing a marker gets the corresponding
extractor invoked. -/
theorem process_url_detection (url : String) (w : World) :
    ((∀ m ∈ providerMarkers, strContains url m = false) →
      (process_url url w).result = .ok false ∧
      ∀ p, Event.extractorInvoked p ∉ (process_url url w).events)
    ∧ ((strContains url "channel4.com" || strContains url "all4.com") = true →
      Event.extractorInvoked .channel4 ∈ (process_url url w).events)
    ∧ ((strContains url "channel4.com" || strContains url "all4.com") = false →
      (strContains url "itv.com" || strContains url "itvx.com") = true →
      Event.extractorInvoked .itv ∈ (process_url url w).events)
    ∧ ((strContains url "channel4.com" || strContains url "all4.com") = false →
      (strContains url "itv.com" || strContains url "itvx.com") = false →
      (strContains url "channel5.com" || strContains url "my5.tv") = true →
      Event.extractorInvoked .channel5 ∈ (process_url url w).events) := by
  refine ⟨?_, ?_, ?_, ?_⟩
  · intro h
    have h1 := h "channel4.com" (by simp [providerMarkers])
    have h2 := h "all4.com" (by simp [providerMarkers])
    have h3 := h "itv.com" (by simp [providerMarkers])
    have h4 := h "itvx.com" (by simp [providerMarkers])
    have h5 := h "channel5.com" (by simp [providerMarkers])
    have h6 := h "my5.tv" (by simp [providerMarkers])
    have hdet : detectProvider url = none := by
      simp [detectProvider, h1, h2, h3, h4, h5, h6]
    refine ⟨by simp [process_url, hdet, failedRun], fun p => ?_⟩
    simp [process_url, hdet, failedRun]
  · intro h
    have hdet : detectProvider url = some .channel4 := by simp [detectProvider, h]
    simp [process_url, hdet]
  · intro h4 h
    have hdet : detectProvider url = some .itv := by simp [detectProvider, h4, h]
    simp [process_url, hdet]
  · intro h4 hi h
    have hdet : detectProvider url = some .channel5 := by
      simp [detectProvider, h4, hi, h]
    simp [process_url, hdet]

/-- C7 witness: a marker-free URL fails without any extractor, and a URL
containing the ITV marker gets the ITV extractor invoked. -/
theorem process_url_detection_witness :
    (process_url "https://www.bbc.co.uk/iplayer" c7world).result = .ok false
    ∧ Event.extractorInvoked .itv ∈
        (process_url "https://www.itv.com/watch/1" c7world).events :=
  ⟨((process_url_detection "https://www.bbc.co.uk/iplayer" c7world).1 (by decide)).1,
   (process_url_detection "https://www.itv.com/watch/1" c7world).2.2.1
     (by decide) (by decide)⟩

/-- C8: whenever a run actually invokes the decrypt/download tool and the
tool exits nonzero, the job returns the typed failure `False`, the
captured stderr is surfaced, and neither the subtitle mux nor the final
rename happens; no final path is produced. -/
theorem tool_failure_is_terminal (url : String) (w : World)
    (hx : w.toolExit ≠ 0)
    (ht : Event.toolInvoked ∈ (process_url url w).events) :
    (process_url url w).result = .ok false
    ∧ Event.errorSurfaced w.toolStderr ∈ (process_url url w).events
    ∧ Event.muxInvoked ∉ (process_url url w).events
    ∧ (∀ a b, Event.renamed a b ∉ (process_url url w).events)
    ∧ (process_url url w).finalPath = none := by
  rcases hdet : detectProvider url with _ | p
  · rw [process_url, hdet] at ht
    simp [failedRun] at ht
  · simp only [process_url, hdet] at ht ⊢
    generalize runExtractor p url w.session = re at ht ⊢
    rcases re with _ | _ | d
    · simp [jobRest, failedRun] at ht
    · simp [jobRest] at ht
    · simp only [jobRest] at ht ⊢
      generalize d.mpd_url = mo at ht ⊢
      rcases mo with _ | m
      · simp [failedRun] at ht
      · dsimp only at ht ⊢
        by_cases hme : m = ""
        · simp [hme, failedRun] at ht
        · rw [if_neg hme] at ht ⊢
          have hev := gdk_trace_shape w.cache d.pssh url w.promptAnswer
          simp only [keyStep] at ht ⊢
          generalize hg : get_drm_key w.cache d.pssh url w.promptAnswer = g at ht hev ⊢
          rcases g with ⟨r, c2, ev⟩
          dsimp only at hev
          rcases r with _ | key
          · dsimp only at ht ⊢
            rcases hev with hev | hev | hev <;> subst hev <;> simp_all
          · have hes := subtitle_trace_shape d.subtitle_url
              (providerTag p ++ "-" ++
                (match d.program_id with | some s => s | none => "None") ++ "-" ++
                w.timestamp) w
            dsimp only at ht ⊢
            generalize hs : subtitleStep d.subtitle_url
                (providerTag p ++ "-" ++
                  (match d.program_id with | some s => s | none => "None") ++ "-" ++
                  w.timestamp) w = sres at ht hes ⊢
            rcases sres with ⟨sp, evSub⟩
            dsimp only at hes
            simp only [download_fail _ _ _ _ _ hx] at ht ⊢
            refine ⟨by simp, by simp, ?_, ?_, trivial⟩
            · rcases hev with hev | hev | hev <;> rcases hes with hes | hes <;>
                subst hev <;> subst hes <;> simp
            · intro a b
              rcases hev with hev | hev | hev <;> rcases hes with hes | hes <;>
                subst hev <;> subst hes <;> simp

/-- C8 witness: a Channel 4 run that reaches the tool, whose tool exits
with code 1 and stderr `boom`. -/
theorem tool_failure_is_terminal_witness :
    (process_url "https://www.channel4.com/programmes/9" c8world).result = .ok false
    ∧ Event.errorSurfaced "boom" ∈
        (process_url "https://www.channel4.com/programmes/9" c8world).events :=
  ⟨(tool_failure_is_terminal "https://www.channel4.com/programmes/9" c8world
      (by decide) (by decide)).1,
   (tool_failure_is_terminal "https://www.channel4.com/programmes/9" c8world
      (by decide) (by decide)).2.1⟩

/-- C9 evaluated at a failing input: the run succeeds, the program id is
undetectable (`searchC4` finds no digit segment in the effective URL), and
the generated base name contains the null-derived component `None` —
`data.get("program_id", "program")` never falls back to the `program`
placeholder because the key is present with value `None`, which the
f-string renders as `"None"`. -/
theorem output_name_none_bug :
    (process_url "https://www.channel4.com/programmes/grand-designs" c9world).result =
      .ok true
    ∧ (process_url "https://www.channel4.com/programmes/grand-designs" c9world).outputName =
      some "Channel4-None-20250101_000000"
    ∧ searchC4 "https://cdn.example.com/a.mpd" = none
    ∧ ("Channel4-None-20250101_000000" : String) ≠ "Channel4-program-20250101_000000" :=
  ⟨rfl, rfl, rfl, by decide⟩

/-- C10: every successful `download_and_decrypt` run returns a path ending
in `_FINAL.mkv`; in particular, when the tool leaves only an `.mp4`, that
`.mp4` file is directly renamed (no conversion step exists) to the
`.mkv`-suffixed final name, which is returned. -/
theorem final_path_mkv (mpdUrl drmKey outputName : String)
    (subPath : Option String) (w : World) :
    (∀ f, (download_and_decrypt mpdUrl drmKey outputName subPath w).1 = some f →
      ∃ stem, f = stem ++ "_FINAL.mkv")
    ∧ (w.toolExit = 0 → w.mkvProduced = false → w.mp4Produced = true →
      (download_and_decrypt mpdUrl drmKey outputName subPath w).1 =
        some (DOWNLOAD_DIR ++ "/" ++ outputName ++ "_FINAL.mkv")
      ∧ Event.renamed (DOWNLOAD_DIR ++ "/" ++ outputName ++ "/" ++ outputName ++ ".mp4")
          (DOWNLOAD_DIR ++ "/" ++ outputName ++ "_FINAL.mkv") ∈
          (download_and_decrypt mpdUrl drmKey outputName subPath w).2) := by
  constructor
  · intro f hf
    by_cases h0 : w.toolExit = 0
    · by_cases hex : (w.mkvProduced || w.mp4Produced) = true
      · simp only [download_and_decrypt, h0, if_pos rfl, hex, if_true] at hf
        simp at hf
        exact ⟨DOWNLOAD_DIR ++ "/" ++ outputName, hf.symm⟩
      · simp [download_and_decrypt, h0, hex] at hf
    · simp [download_and_decrypt, h0] at hf
  · intro h0 hmkv hmp4
    constructor
    · simp [download_and_decrypt, h0, hmkv, hmp4]
    · simp [download_and_decrypt, h0, hmkv, hmp4]

/-- C10 witness: tool succeeded leaving only `.mp4`; the `.mp4` is renamed
to the `_FINAL.mkv` path, which is returned. -/
theorem final_path_mkv_witness :
    (∃ stem, DOWNLOAD_DIR ++ "/" ++ "ITV-abc-1" ++ "_FINAL.mkv" = stem ++ "_FINAL.mkv")
    ∧ (download_and_decrypt "https://cdn.example.com/a.mpd" "k:v" "ITV-abc-1" none
        c10world).1 =
      some (DOWNLOAD_DIR ++ "/" ++ "ITV-abc-1" ++ "_FINAL.mkv")
    ∧ Event.renamed (DOWNLOAD_DIR ++ "/" ++ "ITV-abc-1" ++ "/" ++ "ITV-abc-1" ++ ".mp4")
        (DOWNLOAD_DIR ++ "/" ++ "ITV-abc-1" ++ "_FINAL.mkv") ∈
      (download_and_decrypt "https://cdn.example.com/a.mpd" "k:v" "ITV-abc-1" none
        c10world).2 :=
  ⟨(final_path_mkv "https://cdn.example.com/a.mpd" "k:v" "ITV-abc-1" none c10world).1
      (DOWNLOAD_DIR ++ "/" ++ "ITV-abc-1" ++ "_FINAL.mkv") rfl,
   ((final_path_mkv "https://cdn.example.com/a.mpd" "k:v" "ITV-abc-1" none c10world).2
      rfl rfl rfl).1,
   ((final_path_mkv "https://cdn.example.com/a.mpd" "k:v" "ITV-abc-1" none c10world).2
      rfl rfl rfl).2⟩
